import Mathlib

/-!
Verification of the LinkedIn post generator (Python sources `src/utils.py`,
`src/prompts.py`, `src/generator.py`) against its natural-language
specification.

Python strings are modelled as `List Char`; Python `int` as `ℤ` (or `ℕ`
where the value is a count).  Methods whose only side effect is one call to
the external chat-completion endpoint are modelled as pure functions of the
text reply that the endpoint returns (respectively, as functions returning
the request record they would send).
-/

namespace LinkedInGen

/-- Convert a Lean string literal to the `List Char` model of a Python str. -/
def pyStr (s : String) : List Char := s.toList

/-- Python's whitespace test for `str.split()` / `str.strip()` (ASCII part:
space, tab, newline, carriage return, vertical tab, form feed). -/
def pyIsSpace (c : Char) : Bool :=
  c = ' ' || c = '\t' || c = '\n' || c = '\r' || c = '\x0b' || c = '\x0c'

/-- Python `s.strip()`: drop leading and trailing whitespace. -/
def pyStrip (l : List Char) : List Char :=
  ((l.dropWhile pyIsSpace).reverse.dropWhile pyIsSpace).reverse

/-- Python `s.rstrip()`: drop trailing whitespace. -/
def pyRStrip (l : List Char) : List Char :=
  (l.reverse.dropWhile pyIsSpace).reverse

/-- Python `s.split()` (no separator argument): the maximal runs of
non-whitespace characters, in order; empty runs are discarded. -/
def pySplitWs (l : List Char) : List (List Char) :=
  (l.splitOnP pyIsSpace).filter (fun t => t ≠ [])

/-- Python `" ".join(tokens)`. -/
def joinSpace : List (List Char) → List Char
  | [] => []
  | [t] => t
  | t :: ts => t ++ ' ' :: joinSpace ts

/-- Python `s.startswith("#")`. -/
def startsHash : List Char → Bool
  | '#' :: _ => true
  | _ => false

/-- Python `s[:stop]` slicing for an arbitrary (possibly negative) `int` stop. -/
def pyTake (l : List Char) (stop : Int) : List Char :=
  if stop < 0 then l.take (l.length - stop.natAbs) else l.take stop.toNat

/- ------------------------------------------------------------------
`src/utils.py`
------------------------------------------------------------------ -/

/-- `utils.count_words`: `0` for falsy text, else `len(text.split())`. -/
def count_words (text : List Char) : Nat :=
  if text = [] then 0 else (pySplitWs text).length

/-- `utils.estimate_read_time`: `int(word_count / words_per_minute * 60)`.
The Python computation is exact-rational here up to float rounding; it is
modelled as the floor of the exact rational value (the arguments are
non-negative, so `int` truncation is the floor). -/
def estimate_read_time (text : List Char) (words_per_minute : Nat) : Int :=
  Int.floor ((count_words text : ℚ) / (words_per_minute : ℚ) * 60)

/-- `utils.truncate_text`: return `text` unchanged when it fits, else
`text[:max_length - len(suffix)].rstrip() + suffix`. -/
def truncate_text (text : List Char) (max_length : Int) (suffix : List Char) :
    List Char :=
  if (text.length : Int) ≤ max_length then text
  else pyRStrip (pyTake text (max_length - (suffix.length : Int))) ++ suffix

/-- One tag of the `utils.format_hashtags` loop body: strip, prepend `'#'`
when missing. -/
def formatOneTag (tag : List Char) : List Char :=
  let t := pyStrip tag
  if t ≠ [] ∧ startsHash t = false then '#' :: t else t

/-- The accumulation loop of `utils.format_hashtags`: each cleaned tag is
appended when (still) non-empty. -/
def formatTags : List (List Char) → List (List Char)
  | [] => []
  | tag :: rest =>
    let t := formatOneTag tag
    if t ≠ [] then t :: formatTags rest else formatTags rest

/-- `hashtags.replace(',', ' ')`. -/
def repComma (l : List Char) : List Char :=
  l.map (fun c => if c = ',' then ' ' else c)

/-- `utils.format_hashtags`: empty for falsy input, else split on
commas/whitespace, give every tag a leading `'#'`, re-join with spaces. -/
def format_hashtags (hashtags : List Char) : List Char :=
  if hashtags = [] then []
  else joinSpace (formatTags (pySplitWs (repComma hashtags)))

/-- The bucket cascade of `utils.get_relative_time` on the elapsed seconds
(`diff.total_seconds()`); `Int.tdiv` mirrors Python's `int(...)` truncation
toward zero (all divisions happen on non-negative branches). -/
def relative_time_buckets (seconds : Int) : String :=
  if seconds < 60 then "just now"
  else if seconds < 3600 then
    let minutes := Int.tdiv seconds 60
    toString minutes ++ " minute" ++ (if minutes ≠ 1 then "s" else "") ++ " ago"
  else if seconds < 86400 then
    let hours := Int.tdiv seconds 3600
    toString hours ++ " hour" ++ (if hours ≠ 1 then "s" else "") ++ " ago"
  else if seconds < 604800 then
    let days := Int.tdiv seconds 86400
    toString days ++ " day" ++ (if days ≠ 1 then "s" else "") ++ " ago"
  else
    let weeks := Int.tdiv seconds 604800
    toString weeks ++ " week" ++ (if weeks ≠ 1 then "s" else "") ++ " ago"

/-- `utils.get_relative_time` for a well-formed timestamp: datetimes are
modelled by their epoch second values (`strptime` of a well-formed
`"%Y-%m-%d %H:%M:%S"` string yields a datetime; `now - dt` is the difference
of their epoch values in seconds). -/
def get_relative_time (ts now : Int) : String :=
  relative_time_buckets (now - ts)

/- ------------------------------------------------------------------
`src/prompts.py`

Templates keep the source's dictionary keys; interpolation of the named
placeholders (`{topic}`, `{length}`, `{tone}`, `{post}`) is applied at
lookup time, mirroring `TEMPLATE.format(...)`.  These definitions work on
Lean `String` (no character surgery happens on them).
------------------------------------------------------------------ -/

/-- `prompts.SYSTEM_PROMPT` (verbatim). -/
def SYSTEM_PROMPT : String :=
  "You are an expert LinkedIn content creator with years of experience in crafting \nengaging, professional posts that drive high engagement. You understand LinkedIn's algorithm, \nbest practices for professional networking, and how to write compelling content that resonates \nwith professionals across various industries."

/-- `prompts.POST_GENERATION_PROMPTS["professional"]` with `.format` interpolation applied. -/
def toneTemplateProfessional (topic length : String) : String :=
  "Create a professional LinkedIn post about: " ++ topic ++ "\n\nRequirements:\n- Length: " ++ length ++ " (Short: 2-4 lines, Medium: 5-8 lines, Long: 10-15 lines)\n- Tone: Professional, authoritative, and insightful\n- Include relevant industry terminology\n- Start with a strong hook\n- End with a thought-provoking question or call-to-action\n- Use line breaks for readability\n- NO hashtags in the main text\n\nWrite the post now:"

/-- `prompts.POST_GENERATION_PROMPTS["casual"]` with `.format` interpolation applied. -/
def toneTemplateCasual (topic length : String) : String :=
  "Create a casual but professional LinkedIn post about: " ++ topic ++ "\n\nRequirements:\n- Length: " ++ length ++ " (Short: 2-4 lines, Medium: 5-8 lines, Long: 10-15 lines)\n- Tone: Friendly, conversational, relatable\n- Use simple language and personal anecdotes\n- Start with a relatable hook\n- Add 1-2 relevant emojis (use sparingly)\n- End with an engaging question\n- Use line breaks for readability\n- NO hashtags in the main text\n\nWrite the post now:"

/-- `prompts.POST_GENERATION_PROMPTS["motivational"]` with `.format` interpolation applied. -/
def toneTemplateMotivational (topic length : String) : String :=
  "Create an inspiring, motivational LinkedIn post about: " ++ topic ++ "\n\nRequirements:\n- Length: " ++ length ++ " (Short: 2-4 lines, Medium: 5-8 lines, Long: 10-15 lines)\n- Tone: Uplifting, inspiring, encouraging\n- Include a powerful message or lesson\n- Use storytelling elements\n- Start with an attention-grabbing statement\n- End with an inspiring call-to-action\n- Use line breaks for readability\n- Add 1-2 relevant emojis\n- NO hashtags in the main text\n\nWrite the post now:"

/-- `prompts.POST_GENERATION_PROMPTS["educational"]` with `.format` interpolation applied. -/
def toneTemplateEducational (topic length : String) : String :=
  "Create an educational LinkedIn post about: " ++ topic ++ "\n\nRequirements:\n- Length: " ++ length ++ " (Short: 2-4 lines, Medium: 5-8 lines, Long: 10-15 lines)\n- Tone: Informative, authoritative, helpful\n- Share valuable insights or knowledge\n- Use bullet points or numbered lists if appropriate\n- Include actionable tips or key takeaways\n- Start with a value proposition\n- End with an invitation to discuss or share\n- Use line breaks for readability\n- NO hashtags in the main text\n\nWrite the post now:"

/-- `prompts.POST_GENERATION_PROMPTS["storytelling"]` with `.format` interpolation applied. -/
def toneTemplateStorytelling (topic length : String) : String :=
  "Create a compelling story-based LinkedIn post about: " ++ topic ++ "\n\nRequirements:\n- Length: " ++ length ++ " (Short: 2-4 lines, Medium: 5-8 lines, Long: 10-15 lines)\n- Tone: Narrative, engaging, personal\n- Follow a story arc (beginning, middle, end)\n- Include specific details and emotions\n- Make it relatable and authentic\n- Start with a hook that draws readers in\n- End with a lesson or reflection\n- Use line breaks for readability\n- Add 1-2 relevant emojis\n- NO hashtags in the main text\n\nWrite the post now:"

/-- `prompts.POST_GENERATION_PROMPTS["thought-leadership"]` with `.format` interpolation applied. -/
def toneTemplateThoughtLeadership (topic length : String) : String :=
  "Create a thought-leadership LinkedIn post about: " ++ topic ++ "\n\nRequirements:\n- Length: " ++ length ++ " (Short: 2-4 lines, Medium: 5-8 lines, Long: 10-15 lines)\n- Tone: Authoritative, visionary, intellectually stimulating\n- Share unique insights or perspectives\n- Challenge conventional thinking\n- Use data or trends if relevant\n- Start with a bold statement or question\n- End with a forward-looking perspective\n- Use line breaks for readability\n- NO hashtags in the main text\n\nWrite the post now:"

/-- The dictionary `prompts.POST_GENERATION_PROMPTS`, as a lookup that also
applies `.format(topic=..., length=...)`. -/
def POST_GENERATION_PROMPTS (tone topic length : String) : Option String :=
  if tone = "professional" then some (toneTemplateProfessional topic length) else
  if tone = "casual" then some (toneTemplateCasual topic length) else
  if tone = "motivational" then some (toneTemplateMotivational topic length) else
  if tone = "educational" then some (toneTemplateEducational topic length) else
  if tone = "storytelling" then some (toneTemplateStorytelling topic length) else
  if tone = "thought-leadership" then some (toneTemplateThoughtLeadership topic length) else
  none

/-- `prompts.POST_TYPE_PROMPTS["announcement"]` with `.format` interpolation applied. -/
def typeTemplateAnnouncement (topic length tone : String) : String :=
  "Create a LinkedIn announcement post about: " ++ topic ++ "\n\nThis should announce news, updates, or achievements in a professional and exciting way.\nLength: " ++ length ++ "\nTone: " ++ tone ++ "\n\nInclude:\n- Clear announcement\n- Key details\n- Why it matters\n- Call to action\n\nNO hashtags in the main text.\nWrite the post:"

/-- `prompts.POST_TYPE_PROMPTS["tips"]` with `.format` interpolation applied. -/
def typeTemplateTips (topic length tone : String) : String :=
  "Create a LinkedIn tips/advice post about: " ++ topic ++ "\n\nShare actionable tips or best practices.\nLength: " ++ length ++ "\nTone: " ++ tone ++ "\n\nFormat as:\n- Introduction\n- 3-5 numbered tips\n- Quick summary\n- Engagement question\n\nNO hashtags in the main text.\nWrite the post:"

/-- `prompts.POST_TYPE_PROMPTS["question"]` with `.format` interpolation applied. -/
def typeTemplateQuestion (topic length tone : String) : String :=
  "Create a LinkedIn discussion post with a thought-provoking question about: " ++ topic ++ "\n\nLength: " ++ length ++ "\nTone: " ++ tone ++ "\n\nInclude:\n- Brief context (2-3 lines)\n- Main question that sparks discussion\n- Why this matters\n- Invitation to share thoughts\n\nNO hashtags in the main text.\nWrite the post:"

/-- `prompts.POST_TYPE_PROMPTS["achievement"]` with `.format` interpolation applied. -/
def typeTemplateAchievement (topic length tone : String) : String :=
  "Create a LinkedIn post celebrating an achievement related to: " ++ topic ++ "\n\nLength: " ++ length ++ "\nTone: " ++ tone ++ "\n\nInclude:\n- The achievement\n- Brief journey/context\n- Gratitude or lesson learned\n- Humble brag done right\n\nNO hashtags in the main text.\nWrite the post:"

/-- `prompts.POST_TYPE_PROMPTS["industry_insight"]` with `.format` interpolation applied. -/
def typeTemplateIndustryInsight (topic length tone : String) : String :=
  "Create a LinkedIn post sharing industry insights about: " ++ topic ++ "\n\nLength: " ++ length ++ "\nTone: " ++ tone ++ "\n\nInclude:\n- Current trend or observation\n- Your analysis or perspective\n- What it means for professionals\n- Engaging question\n\nNO hashtags in the main text.\nWrite the post:"

/-- The dictionary `prompts.POST_TYPE_PROMPTS`, as a lookup that also
applies `.format(topic=..., length=..., tone=...)`. -/
def POST_TYPE_PROMPTS (post_type topic length tone : String) : Option String :=
  if post_type = "announcement" then some (typeTemplateAnnouncement topic length tone) else
  if post_type = "tips" then some (typeTemplateTips topic length tone) else
  if post_type = "question" then some (typeTemplateQuestion topic length tone) else
  if post_type = "achievement" then some (typeTemplateAchievement topic length tone) else
  if post_type = "industry_insight" then some (typeTemplateIndustryInsight topic length tone) else
  none

/-- `prompts.REFINEMENT_PROMPTS["make_shorter"]` with `.format` interpolation applied. -/
def refineTemplateMakeShorter (post : String) : String :=
  "Rewrite this LinkedIn post to be shorter while keeping the core message:\n\nOriginal post:\n" ++ post ++ "\n\nRequirements:\n- Cut length by 30-40%\n- Keep the main message and impact\n- Maintain readability\n- NO hashtags\n\nShortened post:"

/-- `prompts.REFINEMENT_PROMPTS["make_longer"]` with `.format` interpolation applied. -/
def refineTemplateMakeLonger (post : String) : String :=
  "Expand this LinkedIn post with more details and depth:\n\nOriginal post:\n" ++ post ++ "\n\nRequirements:\n- Add relevant details, examples, or insights\n- Increase length by 40-50%\n- Maintain flow and engagement\n- NO hashtags\n\nExpanded post:"

/-- `prompts.REFINEMENT_PROMPTS["add_storytelling"]` with `.format` interpolation applied. -/
def refineTemplateAddStorytelling (post : String) : String :=
  "Rewrite this LinkedIn post using storytelling elements:\n\nOriginal post:\n" ++ post ++ "\n\nRequirements:\n- Add narrative structure\n- Include personal or relatable elements\n- Make it more engaging\n- Maintain the core message\n- NO hashtags\n\nRewritten post:"

/-- `prompts.REFINEMENT_PROMPTS["more_professional"]` with `.format` interpolation applied. -/
def refineTemplateMoreProfessional (post : String) : String :=
  "Make this LinkedIn post more professional and polished:\n\nOriginal post:\n" ++ post ++ "\n\nRequirements:\n- Elevate the language\n- Add industry credibility\n- Remove overly casual elements\n- Maintain authenticity\n- NO hashtags\n\nProfessional version:"

/-- `prompts.REFINEMENT_PROMPTS["add_cta"]` with `.format` interpolation applied. -/
def refineTemplateAddCta (post : String) : String :=
  "Add a compelling call-to-action to this LinkedIn post:\n\nOriginal post:\n" ++ post ++ "\n\nRequirements:\n- Add an engaging CTA at the end\n- Encourage comments, shares, or discussion\n- Make it feel natural\n- NO hashtags\n\nPost with CTA:"

/-- The dictionary `prompts.REFINEMENT_PROMPTS`, as a lookup that also
applies `.format(post=...)`. -/
def REFINEMENT_PROMPTS (refinement_type post : String) : Option String :=
  if refinement_type = "make_shorter" then some (refineTemplateMakeShorter post) else
  if refinement_type = "make_longer" then some (refineTemplateMakeLonger post) else
  if refinement_type = "add_storytelling" then some (refineTemplateAddStorytelling post) else
  if refinement_type = "more_professional" then some (refineTemplateMoreProfessional post) else
  if refinement_type = "add_cta" then some (refineTemplateAddCta post) else
  none

/-- `prompts.ENGAGEMENT_SCORE_PROMPT` with `.format(post=...)` applied
(`prompts.get_engagement_score_prompt`). -/
def get_engagement_score_prompt (post : String) : String :=
  "Analyze this LinkedIn post and provide an engagement prediction score:\n\nPost:\n" ++ post ++ "\n\nEvaluate based on:\n1. Hook quality (0-25 points): Is the opening line attention-grabbing?\n2. Content value (0-25 points): Does it provide value, insights, or entertainment?\n3. Readability (0-20 points): Line breaks, length, structure\n4. Call-to-action (0-15 points): Does it encourage engagement?\n5. Authenticity (0-15 points): Does it feel genuine and relatable?\n\nRespond in this format only:\nHook: [score]/25 - [brief reason]\nContent: [score]/25 - [brief reason]\nReadability: [score]/20 - [brief reason]\nCTA: [score]/15 - [brief reason]\nAuthenticity: [score]/15 - [brief reason]\nTotal: [total]/100\nPrediction: [Poor/Fair/Good/Excellent]"

/-- `prompts.get_hashtag_prompt` = `HASHTAG_PROMPT.format(topic=...)`. -/
def get_hashtag_prompt (topic : String) : String :=
  "Generate 8-10 relevant and trending LinkedIn hashtags for this post topic: " ++ topic ++ "\n\nRequirements:\n- Mix of popular hashtags (100k+ followers) and niche hashtags (10k-50k followers)\n- Relevant to the topic and professional context\n- Include industry-specific hashtags\n- Format: Return ONLY the hashtags separated by spaces, starting with #\n- Example format: #Marketing #DigitalMarketing #ContentStrategy\n\nGenerate hashtags now:"

/-- `prompts.get_hook_prompt` = `HOOK_GENERATION_PROMPT.format(topic=...)`. -/
def get_hook_prompt (topic : String) : String :=
  "Generate 3 attention-grabbing opening hooks for a LinkedIn post about: " ++ topic ++ "\n\nEach hook should be:\n- Maximum 1-2 lines\n- Immediately engaging\n- Use one of these techniques: question, bold statement, surprising fact, or personal confession\n- Professional yet captivating\n\nFormat:\nHook 1: [first hook]\nHook 2: [second hook]\nHook 3: [third hook]\n\nGenerate hooks now:"


/-- Python `tone.lower()` (ASCII case folding, which covers every key of
`POST_GENERATION_PROMPTS`). -/
def pyLower (s : String) : String := s.map Char.toLower

/-- `prompts.get_post_prompt`: post-type-specific template first (guarded by
`post_type != "general"`), then tone-specific, then the `"professional"`
default. -/
def get_post_prompt (tone topic length : String) (post_type : String) : String :=
  match if post_type = "general" then none
        else POST_TYPE_PROMPTS post_type topic length tone with
  | some s => s
  | none =>
    match POST_GENERATION_PROMPTS (pyLower tone) topic length with
    | some s => s
    | none => toneTemplateProfessional topic length

/-- `prompts.get_refinement_prompt`: the refinement template for a
recognized `refinement_type`, else `None`. -/
def get_refinement_prompt (refinement_type post : String) : Option String :=
  REFINEMENT_PROMPTS refinement_type post


/- ------------------------------------------------------------------
`src/generator.py`

Each `LinkedInPostGenerator` method performs at most one call to the
external chat-completion endpoint.  A method that post-processes the reply
is modelled as a pure function of the reply text (the raw message content;
`_call_groq_api` strips it before returning).  A method whose claim is
about what it sends is modelled as a function returning the request it
would issue (`GroqCall`), with `Except.error` for a `ValueError` raised
before any call.
------------------------------------------------------------------ -/

/-- The argument record of one `_call_groq_api` invocation (model and
message roles are fixed); `temperature` is the exact rational value of the
Python literal. -/
structure GroqCall where
  prompt : String
  systemPrompt : String
  temperature : ℚ
  maxTokens : Nat
deriving DecidableEq

/-- `LinkedInPostGenerator.refine_post`, up to the external call: look up
the refinement template, raise `ValueError` on a falsy prompt (`None` or
empty), else issue the call.  The `Except.ok` value is the request sent to
the external service; `Except.error` carries the `ValueError` message. -/
def refine_post (post refinement_type : String) : Except String GroqCall :=
  match get_refinement_prompt refinement_type post with
  | none => Except.error ("Invalid refinement type: " ++ refinement_type)
  | some prompt =>
    if prompt = "" then Except.error ("Invalid refinement type: " ++ refinement_type)
    else Except.ok
      { prompt := prompt, systemPrompt := SYSTEM_PROMPT,
        temperature := 7/10, maxTokens := 1500 }

/-- The reply post-processing of `LinkedInPostGenerator.generate_hashtags`
(lines 100-107): strip the reply; if it does not start with `#`, keep only
the whitespace tokens that do, joined by single spaces.  (`reply` is the
raw model message content; `_call_groq_api` already strips it once, and the
method strips again — `pyStrip` is idempotent so one application models
both.) -/
def generate_hashtags (reply : List Char) : List Char :=
  let hashtags := pyStrip reply
  if startsHash hashtags then hashtags
  else joinSpace ((pySplitWs hashtags).filter startsHash)

/-- `line.split("/")[0]`: the segment before the first slash (the whole
line when there is none). -/
def upToFirstSlash (l : List Char) : List Char :=
  l.takeWhile (fun c => c ≠ '/')

/-- `line.split(":")[-1]`: the segment after the last colon (the whole
line when there is none). -/
def afterLastColon (l : List Char) : List Char :=
  (l.reverse.takeWhile (fun c => c ≠ ':')).reverse

/-- `line.split(":", 1)[1]` under the guarantee that `line` contains a
colon: everything after the first colon. -/
def afterFirstColon (l : List Char) : List Char :=
  (l.dropWhile (fun c => c ≠ ':')).tail

/-- The value of a digit run, `none` unless the list is a non-empty string
of ASCII digits. -/
def parseDigits (ds : List Char) : Option Nat :=
  if ds = [] then none
  else if ds.all (fun c => c.isDigit) then
    some (ds.foldl (fun n c => n * 10 + (c.toNat - 48)) 0)
  else none

/-- Python `int(s)` on an already-stripped string: optional sign followed by
digits, `None` (a raised `ValueError`) otherwise. -/
def pyInt : List Char → Option Int
  | '+' :: ds => (parseDigits ds).map (fun n => (n : Int))
  | '-' :: ds => (parseDigits ds).map (fun n => -(n : Int))
  | ds => (parseDigits ds).map (fun n => (n : Int))

/-- `int(line.split("/")[0].split(":")[-1].strip())` of the engagement
parser, `none` when the `int` conversion raises. -/
def scoreVal (l : List Char) : Option Int :=
  pyInt (pyStrip (afterLastColon (upToFirstSlash l)))

/-- `response.split("\n")`. -/
def splitNL (l : List Char) : List (List Char) := l.splitOn '\n'

/-- The result dictionary of `LinkedInPostGenerator.predict_engagement`. -/
structure EngResult where
  hook : Int
  content : Int
  readability : Int
  cta : Int
  authenticity : Int
  total : Int
  prediction : List Char
  details : List Char
deriving DecidableEq

/-- One iteration of the `predict_engagement` parsing loop (lines 199-214):
strip the line, dispatch on its prefix, convert the numeric field.  `none`
models the `ValueError` a failed `int` conversion raises out of the loop
body. -/
def engLineStep (line : List Char) (r : EngResult) : Option EngResult :=
  let l := pyStrip line
  if (pyStr "Hook:").isPrefixOf l then
    (scoreVal l).map (fun v => { r with hook := v })
  else if (pyStr "Content:").isPrefixOf l then
    (scoreVal l).map (fun v => { r with content := v })
  else if (pyStr "Readability:").isPrefixOf l then
    (scoreVal l).map (fun v => { r with readability := v })
  else if (pyStr "CTA:").isPrefixOf l then
    (scoreVal l).map (fun v => { r with cta := v })
  else if (pyStr "Authenticity:").isPrefixOf l then
    (scoreVal l).map (fun v => { r with authenticity := v })
  else if (pyStr "Total:").isPrefixOf l then
    (scoreVal l).map (fun v => { r with total := v })
  else if (pyStr "Prediction:").isPrefixOf l then
    some { r with prediction := pyStrip (afterFirstColon l) }
  else some r

/-- The parsing loop of `predict_engagement` (lines 197-216): lines are
processed in order inside a single `try`; the first raising line aborts the
whole loop and the `except: pass` keeps the fields assigned so far. -/
def parseEngLines : List (List Char) → EngResult → EngResult
  | [], r => r
  | line :: rest, r =>
    match engLineStep line r with
    | some r2 => parseEngLines rest r2
    | none => r

/-- `LinkedInPostGenerator.predict_engagement` as a function of the model
reply: the zero-initialised result dictionary, updated by the parsing loop. -/
def predict_engagement (response : List Char) : EngResult :=
  parseEngLines (splitNL response)
    { hook := 0, content := 0, readability := 0, cta := 0, authenticity := 0,
      total := 0, prediction := pyStr "Unknown", details := response }


/-- The spec's phrase "exactly one leading `#`" as a predicate on an output
token: it starts with `#` and its second character is not `#`. -/
def exactlyOneLeadingHash (t : List Char) : Bool :=
  startsHash t && !(startsHash t.tail)

/- ------------------------------------------------------------------
Helper lemmas
------------------------------------------------------------------ -/

/-- The five keys of `REFINEMENT_PROMPTS`. -/
lemma refinement_lookup_isSome (k post : String) :
    (REFINEMENT_PROMPTS k post).isSome = true ↔
      k = "make_shorter" ∨ k = "make_longer" ∨ k = "add_storytelling" ∨
      k = "more_professional" ∨ k = "add_cta" := by
  unfold REFINEMENT_PROMPTS
  split_ifs with h1 h2 h3 h4 h5 <;> simp_all

/-- A line whose stripped text does not carry the `Readability:` prefix
never changes the `readability` field. -/
lemma engLineStep_readability (line : List Char) (r r2 : EngResult)
    (hline : (pyStr "Readability:").isPrefixOf (pyStrip line) = false)
    (hstep : engLineStep line r = some r2) : r2.readability = r.readability := by
  simp only [engLineStep] at hstep
  by_cases h1 : (pyStr "Hook:").isPrefixOf (pyStrip line) = true
  · rw [if_pos h1] at hstep
    obtain ⟨v, _, rfl⟩ := Option.map_eq_some'.mp hstep
    rfl
  rw [if_neg h1] at hstep
  by_cases h2 : (pyStr "Content:").isPrefixOf (pyStrip line) = true
  · rw [if_pos h2] at hstep
    obtain ⟨v, _, rfl⟩ := Option.map_eq_some'.mp hstep
    rfl
  rw [if_neg h2, if_neg (by simp [hline])] at hstep
  by_cases h4 : (pyStr "CTA:").isPrefixOf (pyStrip line) = true
  · rw [if_pos h4] at hstep
    obtain ⟨v, _, rfl⟩ := Option.map_eq_some'.mp hstep
    rfl
  rw [if_neg h4] at hstep
  by_cases h5 : (pyStr "Authenticity:").isPrefixOf (pyStrip line) = true
  · rw [if_pos h5] at hstep
    obtain ⟨v, _, rfl⟩ := Option.map_eq_some'.mp hstep
    rfl
  rw [if_neg h5] at hstep
  by_cases h6 : (pyStr "Total:").isPrefixOf (pyStrip line) = true
  · rw [if_pos h6] at hstep
    obtain ⟨v, _, rfl⟩ := Option.map_eq_some'.mp hstep
    rfl
  rw [if_neg h6] at hstep
  by_cases h7 : (pyStr "Prediction:").isPrefixOf (pyStrip line) = true
  · rw [if_pos h7] at hstep
    cases hstep
    rfl
  rw [if_neg h7] at hstep
  cases hstep
  rfl

/-- Over any run of the loop, `readability` stays at its incoming value as
long as no line carries the `Readability:` prefix. -/
lemma parseEngLines_readability (lines : List (List Char)) (r : EngResult)
    (h : ∀ line ∈ lines, (pyStr "Readability:").isPrefixOf (pyStrip line) = false) :
    (parseEngLines lines r).readability = r.readability := by
  induction lines generalizing r with
  | nil => rfl
  | cons line rest ih =>
    have hline := h line (by simp)
    have hrest : ∀ l ∈ rest, (pyStr "Readability:").isPrefixOf (pyStrip l) = false :=
      fun l hl => h l (by simp [hl])
    show (match engLineStep line r with
          | some r2 => parseEngLines rest r2
          | none => r).readability = r.readability
    cases hstep : engLineStep line r with
    | none => rfl
    | some r2 =>
      simp only []
      rw [ih r2 hrest, engLineStep_readability line r r2 hline hstep]

/- ------------------------------------------------------------------
Claim theorems
------------------------------------------------------------------ -/

/-- C7: `get_relative_time` at the bucket boundaries: 59 seconds before now
is "just now", 60 seconds is "1 minute ago", 3600 seconds is "1 hour ago". -/
theorem get_relative_time_boundaries (now : Int) :
    get_relative_time (now - 59) now = "just now" ∧
    get_relative_time (now - 60) now = "1 minute ago" ∧
    get_relative_time (now - 3600) now = "1 hour ago" := by
  unfold get_relative_time
  have h1 : now - (now - 59) = 59 := by ring
  have h2 : now - (now - 60) = 60 := by ring
  have h3 : now - (now - 3600) = 3600 := by ring
  rw [h1, h2, h3]
  refine ⟨by decide, by decide, by decide⟩

/-- C2 (counterexample): contrary to the claim, the refinement kinds
`shorten` and `lengthen` are not recognized — the lookup returns `none`
for both. -/
theorem refinement_kind_shorten_counterexample :
    get_refinement_prompt "shorten" "Some post" = none ∧
    get_refinement_prompt "lengthen" "Some post" = none := by
  exact ⟨rfl, rfl⟩

/-- C2 (amended): `get_refinement_prompt` returns a template exactly for the
five kinds `make_shorter`, `make_longer`, `add_storytelling`,
`more_professional`, `add_cta`, and `none` for every other kind. -/
theorem get_refinement_prompt_recognized_iff (k post : String) :
    (get_refinement_prompt k post).isSome = true ↔
      k = "make_shorter" ∨ k = "make_longer" ∨ k = "add_storytelling" ∨
      k = "more_professional" ∨ k = "add_cta" := by
  unfold get_refinement_prompt
  exact refinement_lookup_isSome k post

/-- C3: for every post and every refinement kind outside the recognized
set, `refine_post` raises `ValueError` and never issues the external call. -/
theorem refine_post_rejects_unknown_kind (post k : String)
    (h : ¬(k = "make_shorter" ∨ k = "make_longer" ∨ k = "add_storytelling" ∨
           k = "more_professional" ∨ k = "add_cta")) :
    refine_post post k = Except.error ("Invalid refinement type: " ++ k) := by
  have hnone : get_refinement_prompt k post = none := by
    have := (refinement_lookup_isSome k post).not.mpr h
    unfold get_refinement_prompt
    simpa [Option.not_isSome_iff_eq_none] using this
  unfold refine_post
  rw [hnone]

theorem refine_post_rejects_unknown_kind_witness :
    ¬(("shorten" : String) = "make_shorter" ∨ ("shorten" : String) = "make_longer" ∨
      ("shorten" : String) = "add_storytelling" ∨
      ("shorten" : String) = "more_professional" ∨ ("shorten" : String) = "add_cta") ∧
    refine_post "My post" "shorten" =
      Except.error ("Invalid refinement type: " ++ "shorten") :=
  ⟨by decide, refine_post_rejects_unknown_kind "My post" "shorten" (by decide)⟩

/-- C4: `get_post_prompt` resolves by the fallback order of the spec: the
post-type-specific template when one exists, else the tone-specific
template, else the default professional template. -/
theorem get_post_prompt_fallback_order (tone topic length post_type : String) :
    get_post_prompt tone topic length post_type =
      match POST_TYPE_PROMPTS post_type topic length tone with
      | some s => s
      | none =>
        match POST_GENERATION_PROMPTS (pyLower tone) topic length with
        | some s => s
        | none => toneTemplateProfessional topic length := by
  unfold get_post_prompt
  by_cases h : post_type = "general"
  · subst h
    have hnone : POST_TYPE_PROMPTS "general" topic length tone = none := rfl
    rw [if_pos rfl, hnone]
  · rw [if_neg h]

/-- C10: when the suffix fits in the limit, `truncate_text` never exceeds
`max_length`, and text already within the limit is returned unchanged. -/
theorem truncate_text_length_bound (text : List Char) (max_length : Int)
    (suffix : List Char) (h : (suffix.length : Int) ≤ max_length) :
    ((truncate_text text max_length suffix).length : Int) ≤ max_length ∧
    ((text.length : Int) ≤ max_length → truncate_text text max_length suffix = text) := by
  unfold truncate_text
  by_cases hfit : (text.length : Int) ≤ max_length
  · rw [if_pos hfit]
    exact ⟨hfit, fun _ => rfl⟩
  · rw [if_neg hfit]
    refine ⟨?_, fun hcontra => absurd hcontra hfit⟩
    have hstop : ¬ (max_length - (suffix.length : Int) < 0) := by omega
    have hlen1 : (pyRStrip (pyTake text (max_length - (suffix.length : Int)))).length ≤
        (pyTake text (max_length - (suffix.length : Int))).length := by
      unfold pyRStrip
      calc ((pyTake text (max_length - (suffix.length : Int))).reverse.dropWhile pyIsSpace).reverse.length
          = ((pyTake text (max_length - (suffix.length : Int))).reverse.dropWhile pyIsSpace).length := by
            rw [List.length_reverse]
        _ ≤ (pyTake text (max_length - (suffix.length : Int))).reverse.length :=
            (List.dropWhile_suffix pyIsSpace).length_le
        _ = (pyTake text (max_length - (suffix.length : Int))).length := by
            rw [List.length_reverse]
    have hlen2 : (pyTake text (max_length - (suffix.length : Int))).length ≤
        (max_length - (suffix.length : Int)).toNat := by
      unfold pyTake
      rw [if_neg hstop]
      simp [List.length_take]
    rw [List.length_append]
    push_cast
    omega

theorem truncate_text_length_bound_witness :
    (((pyStr "...").length : Int) ≤ 5) ∧
    (((truncate_text (pyStr "hello world") 5 (pyStr "...")).length : Int) ≤ 5 ∧
     (((pyStr "hello world").length : Int) ≤ 5 →
       truncate_text (pyStr "hello world") 5 (pyStr "...") = pyStr "hello world")) :=
  ⟨by decide, truncate_text_length_bound (pyStr "hello world") 5 (pyStr "...") (by decide)⟩

/-- C8: for a fixed positive reading speed, the read-time estimate is
monotone in the word count. -/
theorem estimate_read_time_monotone (t1 t2 : List Char) (wpm : Nat)
    (hw : 0 < wpm) (h : count_words t1 ≤ count_words t2) :
    estimate_read_time t1 wpm ≤ estimate_read_time t2 wpm := by
  unfold estimate_read_time
  apply Int.floor_le_floor
  have hw' : (0 : ℚ) < (wpm : ℚ) := by exact_mod_cast hw
  have h' : (count_words t1 : ℚ) ≤ (count_words t2 : ℚ) := by exact_mod_cast h
  gcongr

theorem estimate_read_time_monotone_witness :
    0 < 200 ∧ count_words (pyStr "a") ≤ count_words (pyStr "a b") ∧
    estimate_read_time (pyStr "a") 200 ≤ estimate_read_time (pyStr "a b") 200 :=
  ⟨by decide, by decide,
    estimate_read_time_monotone (pyStr "a") (pyStr "a b") 200 (by decide) (by decide)⟩

/-- C6 (counterexample): a reply that begins with whitespace rather than
`#` is returned whole after stripping — the non-`#` token `rocks` is kept,
contrary to the claim's "keeps exactly the tokens that begin with `#`". -/
theorem generate_hashtags_untrimmed_counterexample :
    startsHash (pyStr " #ai rocks") = false ∧
    generate_hashtags (pyStr " #ai rocks") = pyStr "#ai rocks" ∧
    joinSpace ((pySplitWs (pyStr " #ai rocks")).filter startsHash) = pyStr "#ai" ∧
    pyStr "#ai rocks" ≠ pyStr "#ai" := by
  refine ⟨rfl, rfl, rfl, by decide⟩

/-- C6 (amended): when the *stripped* reply does not begin with `#`,
`generate_hashtags` keeps exactly the whitespace tokens beginning with `#`,
joined by single spaces. -/
theorem generate_hashtags_filters_tokens (reply : List Char)
    (h : startsHash (pyStrip reply) = false) :
    generate_hashtags reply =
      joinSpace ((pySplitWs (pyStrip reply)).filter startsHash) := by
  unfold generate_hashtags
  simp [h]

theorem generate_hashtags_filters_tokens_witness :
    startsHash (pyStrip (pyStr "Sure! #Tech #AI rocks #Growth")) = false ∧
    generate_hashtags (pyStr "Sure! #Tech #AI rocks #Growth") = pyStr "#Tech #AI #Growth" := by
  refine ⟨by decide, ?_⟩
  rw [generate_hashtags_filters_tokens (pyStr "Sure! #Tech #AI rocks #Growth") (by decide)]
  decide

/-- C1 (counterexample): one malformed numeric field aborts the whole
parsing loop: with `Hook: abc/25` first, the later well-formed line
`Content: 20/25` is *not* parsed (`content` stays `0`), contrary to the
claim that remaining well-formed lines are still parsed. -/
theorem predict_engagement_abort_counterexample :
    scoreVal (pyStr "Hook: abc/25") = none ∧
    scoreVal (pyStr "Content: 20/25") = some 20 ∧
    (predict_engagement (pyStr "Hook: abc/25\nContent: 20/25")).content = 0 ∧
    (predict_engagement (pyStr "Hook: abc/25\nContent: 20/25")).content ≠ 20 := by
  refine ⟨rfl, rfl, rfl, by decide⟩

/-- C1 (amended): `predict_engagement` always returns a best-effort result
dictionary.  A field whose prefixed line is absent stays at its zero
default (shown in general for `Readability:`, and concretely: the reply
missing only the `Readability:` line parses every other field); but the
first line whose numeric value fails `int` conversion aborts the loop, so
later lines — even well-formed ones — leave their fields at the values set
so far. -/
theorem predict_engagement_partial_results :
    (∀ response : List Char,
      (∀ line ∈ splitNL response,
        (pyStr "Readability:").isPrefixOf (pyStrip line) = false) →
      (predict_engagement response).readability = 0) ∧
    predict_engagement (pyStr "Hook: 20/25 - good\nContent: 18/25 - solid\nCTA: 12/15 - ok\nAuthenticity: 11/15 - fine\nTotal: 61/100\nPrediction: Good") =
      { hook := 20, content := 18, readability := 0, cta := 12,
        authenticity := 11, total := 61, prediction := pyStr "Good",
        details := pyStr "Hook: 20/25 - good\nContent: 18/25 - solid\nCTA: 12/15 - ok\nAuthenticity: 11/15 - fine\nTotal: 61/100\nPrediction: Good" } ∧
    (predict_engagement (pyStr "Hook: abc/25\nContent: 20/25")).hook = 0 ∧
    (predict_engagement (pyStr "Hook: abc/25\nContent: 20/25")).content = 0 := by
  refine ⟨?_, rfl, rfl, rfl⟩
  intro response h
  unfold predict_engagement
  exact parseEngLines_readability _ _ h

theorem predict_engagement_partial_results_witness :
    (predict_engagement (pyStr "Hook: 20/25 - good\nContent: 18/25 - solid\nCTA: 12/15 - ok\nAuthenticity: 11/15 - fine\nTotal: 61/100\nPrediction: Good")).readability = 0 :=
  predict_engagement_partial_results.1 (pyStr "Hook: 20/25 - good\nContent: 18/25 - solid\nCTA: 12/15 - ok\nAuthenticity: 11/15 - fine\nTotal: 61/100\nPrediction: Good") (by decide)

/- ------------------------------------------------------------------
Token machinery for `format_hashtags` (claims C5 and C9)
------------------------------------------------------------------ -/

lemma joinSpace_nil : joinSpace [] = [] := rfl

lemma joinSpace_single (t : List Char) : joinSpace [t] = t := rfl

lemma joinSpace_cons2 (t t2 : List Char) (ts : List (List Char)) :
    joinSpace (t :: t2 :: ts) = t ++ ' ' :: joinSpace (t2 :: ts) := rfl

/-- Characters of a `splitOnP` segment come from the original list and never
satisfy the predicate. -/
lemma splitOnP_mem (p : Char → Bool) (l : List Char) :
    ∀ s ∈ l.splitOnP p, ∀ c ∈ s, c ∈ l ∧ p c = false := by
  induction l with
  | nil =>
    intro s hs c hc
    rw [List.splitOnP_nil] at hs
    simp only [List.mem_singleton] at hs
    subst hs
    simp at hc
  | cons x xs ih =>
    intro s hs c hc
    rw [List.splitOnP_cons] at hs
    by_cases hpx : p x = true
    · rw [if_pos hpx] at hs
      rcases List.mem_cons.mp hs with h1 | h1
      · subst h1; simp at hc
      · obtain ⟨h2, h3⟩ := ih s h1 c hc
        exact ⟨List.mem_cons_of_mem x h2, h3⟩
    · rw [if_neg hpx] at hs
      obtain ⟨L0, t, hLt⟩ : ∃ L0 t, xs.splitOnP p = L0 :: t := by
        cases hsp : xs.splitOnP p with
        | nil => exact absurd hsp (List.splitOnP_ne_nil p xs)
        | cons a b => exact ⟨a, b, rfl⟩
      rw [hLt] at hs
      simp only [List.modifyHead] at hs
      rcases List.mem_cons.mp hs with h1 | h1
      · subst h1
        rcases List.mem_cons.mp hc with rfl | hc2
        · exact ⟨List.mem_cons_self c xs, by simpa using hpx⟩
        · have hL0 : L0 ∈ xs.splitOnP p := by rw [hLt]; exact List.mem_cons_self L0 t
          obtain ⟨h2, h3⟩ := ih L0 hL0 c hc2
          exact ⟨List.mem_cons_of_mem x h2, h3⟩
      · have hsL : s ∈ xs.splitOnP p := by rw [hLt]; exact List.mem_cons_of_mem L0 h1
        obtain ⟨h2, h3⟩ := ih s hsL c hc
        exact ⟨List.mem_cons_of_mem x h2, h3⟩

/-- Tokens produced by `pySplitWs` are non-empty, drawn from the input, and
whitespace-free. -/
lemma pySplitWs_props (l : List Char) :
    ∀ t ∈ pySplitWs l, t ≠ [] ∧ ∀ c ∈ t, c ∈ l ∧ pyIsSpace c = false := by
  intro t ht
  unfold pySplitWs at ht
  obtain ⟨h1, h2⟩ := List.mem_filter.mp ht
  exact ⟨by simpa using h2, fun c hc => splitOnP_mem pyIsSpace l t h1 c hc⟩

lemma dropWhile_eq_self_of (p : Char → Bool) (l : List Char)
    (h : ∀ c ∈ l, p c = false) : l.dropWhile p = l := by
  cases l with
  | nil => rfl
  | cons c cs =>
    rw [List.dropWhile_cons, if_neg]
    simp [h c (List.mem_cons_self c cs)]

lemma pyStrip_eq_self (l : List Char) (h : ∀ c ∈ l, pyIsSpace c = false) :
    pyStrip l = l := by
  unfold pyStrip
  rw [dropWhile_eq_self_of _ _ h,
      dropWhile_eq_self_of _ _ (fun c hc => h c (List.mem_reverse.mp hc)),
      List.reverse_reverse]

lemma mem_pyStrip (l : List Char) (c : Char) (hc : c ∈ pyStrip l) : c ∈ l := by
  unfold pyStrip at hc
  have h1 := List.mem_reverse.mp hc
  have h2 := (List.dropWhile_suffix pyIsSpace).sublist.subset h1
  have h3 := List.mem_reverse.mp h2
  exact (List.dropWhile_suffix pyIsSpace).sublist.subset h3

/-- Splitting a whitespace-free token followed by a space separator peels
off exactly that token. -/
lemma pySplitWs_sep_append (t rest : List Char) (ht : t ≠ [])
    (h : ∀ c ∈ t, pyIsSpace c = false) :
    pySplitWs (t ++ ' ' :: rest) = t :: pySplitWs rest := by
  unfold pySplitWs
  rw [List.splitOnP_first _ _ (fun x hx => by simp [h x hx]) ' ' (by decide) rest]
  rw [List.filter_cons, if_pos (by simpa using ht)]

/-- `pySplitWs` is a left inverse of `joinSpace` on lists of non-empty,
whitespace-free tokens. -/
lemma pySplitWs_joinSpace (toks : List (List Char))
    (h : ∀ t ∈ toks, t ≠ [] ∧ ∀ c ∈ t, pyIsSpace c = false) :
    pySplitWs (joinSpace toks) = toks := by
  induction toks with
  | nil => rfl
  | cons t ts ih =>
    cases ts with
    | nil =>
      obtain ⟨h1, h2⟩ := h t (List.mem_cons_self t [])
      rw [joinSpace_single]
      unfold pySplitWs
      rw [List.splitOnP_eq_single _ _ (fun x hx => by simp [h2 x hx])]
      rw [List.filter_cons, if_pos (by simpa using h1), List.filter_nil]
    | cons t2 ts2 =>
      obtain ⟨h1, h2⟩ := h t (List.mem_cons_self t (t2 :: ts2))
      have hrest : ∀ u ∈ t2 :: ts2, u ≠ [] ∧ ∀ c ∈ u, pyIsSpace c = false :=
        fun u hu => h u (List.mem_cons_of_mem t hu)
      rw [joinSpace_cons2, pySplitWs_sep_append t _ h1 h2, ih hrest]

lemma mem_joinSpace (ts : List (List Char)) (c : Char) (hc : c ∈ joinSpace ts) :
    c = ' ' ∨ ∃ t ∈ ts, c ∈ t := by
  induction ts with
  | nil => simp [joinSpace_nil] at hc
  | cons t ts ih =>
    cases ts with
    | nil =>
      right
      exact ⟨t, List.mem_cons_self t [], by simpa [joinSpace_single] using hc⟩
    | cons t2 ts2 =>
      rw [joinSpace_cons2] at hc
      rcases List.mem_append.mp hc with h1 | h1
      · right; exact ⟨t, List.mem_cons_self t (t2 :: ts2), h1⟩
      · rcases List.mem_cons.mp h1 with rfl | h2
        · left; rfl
        · rcases ih h2 with h3 | ⟨u, hu, hcu⟩
          · left; exact h3
          · right; exact ⟨u, List.mem_cons_of_mem t hu, hcu⟩

lemma joinSpace_ne_nil (ts : List (List Char)) (h0 : ts ≠ [])
    (h : ∀ t ∈ ts, t ≠ []) : joinSpace ts ≠ [] := by
  cases ts with
  | nil => exact absurd rfl h0
  | cons t rest =>
    cases rest with
    | nil => simpa [joinSpace_single] using h t (List.mem_cons_self t [])
    | cons t2 ts2 =>
      rw [joinSpace_cons2]
      cases t with
      | nil => simp
      | cons a as => simp

lemma mem_repComma_ne (l : List Char) (c : Char) (hc : c ∈ repComma l) :
    c ≠ ',' := by
  unfold repComma at hc
  obtain ⟨d, _, hdc⟩ := List.mem_map.mp hc
  by_cases h : d = ','
  · rw [if_pos h] at hdc; subst hdc; decide
  · rw [if_neg h] at hdc; subst hdc; exact h

lemma repComma_eq_self (l : List Char) (h : ∀ c ∈ l, c ≠ ',') :
    repComma l = l := by
  unfold repComma
  calc l.map (fun c => if c = ',' then ' ' else c)
      = l.map id := List.map_congr_left (fun a ha => by simp [h a ha])
    _ = l := List.map_id l

lemma formatOneTag_props (tag : List Char)
    (htag : ∀ c ∈ tag, pyIsSpace c = false ∧ c ≠ ',') :
    (formatOneTag tag ≠ [] → startsHash (formatOneTag tag) = true) ∧
    ∀ c ∈ formatOneTag tag, pyIsSpace c = false ∧ c ≠ ',' := by
  have hstrip : ∀ c ∈ pyStrip tag, pyIsSpace c = false ∧ c ≠ ',' :=
    fun c hc => htag c (mem_pyStrip tag c hc)
  unfold formatOneTag
  by_cases hcond : pyStrip tag ≠ [] ∧ startsHash (pyStrip tag) = false
  · rw [if_pos hcond]
    refine ⟨fun _ => rfl, fun c hc => ?_⟩
    rcases List.mem_cons.mp hc with rfl | h2
    · exact ⟨by decide, by decide⟩
    · exact hstrip c h2
  · rw [if_neg hcond]
    refine ⟨fun hne => ?_, hstrip⟩
    rcases not_and_or.mp hcond with h1 | h1
    · exact absurd (not_not.mp h1) hne
    · simpa using h1

lemma formatTags_props (toks : List (List Char))
    (h : ∀ u ∈ toks, ∀ c ∈ u, pyIsSpace c = false ∧ c ≠ ',') :
    ∀ t ∈ formatTags toks,
      t ≠ [] ∧ startsHash t = true ∧ ∀ c ∈ t, pyIsSpace c = false ∧ c ≠ ',' := by
  induction toks with
  | nil => intro t ht; simp [formatTags] at ht
  | cons tag rest ih =>
    intro t ht
    have htag := h tag (List.mem_cons_self tag rest)
    have hrest : ∀ u ∈ rest, ∀ c ∈ u, pyIsSpace c = false ∧ c ≠ ',' :=
      fun u hu => h u (List.mem_cons_of_mem tag hu)
    simp only [formatTags] at ht
    by_cases hne : formatOneTag tag ≠ []
    · rw [if_pos hne] at ht
      rcases List.mem_cons.mp ht with rfl | h2
      · exact ⟨hne, (formatOneTag_props tag htag).1 hne,
          (formatOneTag_props tag htag).2⟩
      · exact ih hrest t h2
    · rw [if_neg hne] at ht
      exact ih hrest t ht

lemma formatTags_eq_self (ts : List (List Char))
    (h : ∀ t ∈ ts, t ≠ [] ∧ startsHash t = true ∧ ∀ c ∈ t, pyIsSpace c = false) :
    formatTags ts = ts := by
  induction ts with
  | nil => rfl
  | cons t rest ih =>
    obtain ⟨h1, h2, h3⟩ := h t (List.mem_cons_self t rest)
    have hone : formatOneTag t = t := by
      unfold formatOneTag
      rw [pyStrip_eq_self t h3, if_neg (by simp [h2])]
    simp only [formatTags, hone]
    rw [if_pos h1, ih (fun u hu => h u (List.mem_cons_of_mem t hu))]

/-- The tokens `format_hashtags` is built from, with their properties. -/
lemma format_hashtags_eq_join (s : List Char) (hs : s ≠ []) :
    format_hashtags s = joinSpace (formatTags (pySplitWs (repComma s))) := by
  unfold format_hashtags
  rw [if_neg hs]

lemma format_hashtags_tokens_props (s : List Char) :
    ∀ t ∈ formatTags (pySplitWs (repComma s)),
      t ≠ [] ∧ startsHash t = true ∧ ∀ c ∈ t, pyIsSpace c = false ∧ c ≠ ',' := by
  apply formatTags_props
  intro u hu c hc
  obtain ⟨_, hprops⟩ := pySplitWs_props (repComma s) u hu
  obtain ⟨hmem, hws⟩ := hprops c hc
  exact ⟨hws, mem_repComma_ne s c hmem⟩

/-- C5 (counterexample): the output token for input `##ai` is `##ai`, which
does not carry *exactly* one leading `#`. -/
theorem format_hashtags_exactly_one_counterexample :
    format_hashtags (pyStr "##ai") = pyStr "##ai" ∧
    pyStr "##ai" ∈ pySplitWs (format_hashtags (pyStr "##ai")) ∧
    exactlyOneLeadingHash (pyStr "##ai") = false :=
  ⟨rfl, by decide, by decide⟩

/-- C5 (amended): `format_hashtags "ai, ml" = "#ai #ml"`; commas act as
token separators and every token of the output begins with (at least one)
`'#'` — a `'#'` is prepended only to tokens not already starting with one. -/
theorem format_hashtags_leading_hash :
    format_hashtags (pyStr "ai, ml") = pyStr "#ai #ml" ∧
    ∀ s t, t ∈ pySplitWs (format_hashtags s) → startsHash t = true := by
  refine ⟨rfl, ?_⟩
  intro s t ht
  by_cases hs : s = []
  · subst hs
    rw [show format_hashtags [] = [] from rfl] at ht
    exact absurd ht (List.not_mem_nil t)
  rw [format_hashtags_eq_join s hs] at ht
  have hprops := format_hashtags_tokens_props s
  rw [pySplitWs_joinSpace _
    (fun u hu => ⟨(hprops u hu).1, fun c hc => ((hprops u hu).2.2 c hc).1⟩)] at ht
  exact (hprops t ht).2.1

theorem format_hashtags_leading_hash_witness :
    pyStr "#ai" ∈ pySplitWs (format_hashtags (pyStr "ai, ml")) ∧
    startsHash (pyStr "#ai") = true :=
  ⟨by decide,
    format_hashtags_leading_hash.2 (pyStr "ai, ml") (pyStr "#ai") (by decide)⟩

/-- C9: `format_hashtags` is idempotent. -/
theorem format_hashtags_idempotent (s : List Char) :
    format_hashtags (format_hashtags s) = format_hashtags s := by
  by_cases hs : s = []
  · subst hs; rfl
  rw [format_hashtags_eq_join s hs]
  have hprops := format_hashtags_tokens_props s
  by_cases hts0 : formatTags (pySplitWs (repComma s)) = []
  · rw [hts0]; rfl
  have hjoin_ne : joinSpace (formatTags (pySplitWs (repComma s))) ≠ [] :=
    joinSpace_ne_nil _ hts0 (fun t ht => (hprops t ht).1)
  rw [format_hashtags_eq_join _ hjoin_ne]
  have hnocomma : ∀ c ∈ joinSpace (formatTags (pySplitWs (repComma s))), c ≠ ',' := by
    intro c hc
    rcases mem_joinSpace _ c hc with rfl | ⟨t, ht, hct⟩
    · decide
    · exact ((hprops t ht).2.2 c hct).2
  rw [repComma_eq_self _ hnocomma]
  rw [pySplitWs_joinSpace _
    (fun t ht => ⟨(hprops t ht).1, fun c hc => ((hprops t ht).2.2 c hc).1⟩)]
  rw [formatTags_eq_self _
    (fun t ht => ⟨(hprops t ht).1, (hprops t ht).2.1,
      fun c hc => ((hprops t ht).2.2 c hc).1⟩)]

end LinkedInGen
